import Mathlib

/-!
Verification of the forecast pipeline of `scripts/api.py`
(crude-oil-price-forecasting).

The single endpoint `forecast_time_series` is embedded shallowly:

* Python strings used as the `method` parameter are lists of Unicode code
  points (`List Nat`); `str.lower` / `str.upper` are modelled on the ASCII
  range (the recognized values `arima` / `sarima` are ASCII).
* `np.load` is a read from an abstract `SeriesStore`, which may fail
  (missing / unreadable file).
* The statsmodels calls (`ARIMA(...)` + `.fit()`, `SARIMAX(...)` + `.fit()`,
  `.get_forecast(...)` + `.predicted_mean` / `.conf_int()`) are opaque
  library capabilities, modelled as an abstract `StatsBackend` whose
  operations may fail with a Python-exception message.  Series values are a
  type parameter `α` (floats carry no arithmetic in this pipeline — they are
  passed through).
* `pd.to_datetime('2024-01-01')` is the day number of 2024-01-01 counted
  from the Unix epoch; `pd.date_range(start, periods, freq='D')` produces
  consecutive day numbers and rejects a negative `periods`.
* `pd.DataFrame` construction fails when its columns have unequal lengths
  (pandas raises `ValueError: All arrays must be of the same length`);
  otherwise it zips the columns into rows.
* A Python exception raised inside the `try:` block becomes
  `Outcome.httpError 500 ("Error in forecast generation: " ++ msg)`;
  an exception raised outside it (e.g. a failing `np.load`) escapes the
  handler and becomes `Outcome.crash msg`.
* The pipeline also returns a trace of the library calls it performed
  (`Event`): file loads, model construction+fit, forecast extraction.
-/

/-! ## Python string case folding (ASCII fragment) -/

/-- A Python string, as its sequence of Unicode code points. -/
abbrev PyStr := List Nat

/-- Code points of a Lean string literal. -/
def pyOfString (s : String) : PyStr := s.data.map Char.toNat

/-- `str.lower` on one code point (ASCII range). -/
def lowerCP (c : Nat) : Nat := if 65 ≤ c ∧ c ≤ 90 then c + 32 else c

/-- `str.upper` on one code point (ASCII range). -/
def upperCP (c : Nat) : Nat := if 97 ≤ c ∧ c ≤ 122 then c - 32 else c

/-- `method.lower()`. -/
def pyLower (s : PyStr) : PyStr := s.map lowerCP

/-- `method.upper()`. -/
def pyUpper (s : PyStr) : PyStr := s.map upperCP

/-! ## Dates -/

/-- Days from the Unix epoch (1970-01-01) to the civil date y-m-d
(Howard Hinnant's `days_from_civil`); models a day-resolution
`pd.Timestamp`. -/
def daysFromCivil (y m d : Int) : Int :=
  let ys : Int := if m ≤ 2 then y - 1 else y
  let era : Int := (if 0 ≤ ys then ys else ys - 399) / 400
  let yoe : Int := ys - era * 400
  let mp : Int := (m + 9) % 12
  let doy : Int := (153 * mp + 2) / 5 + d - 1
  let doe : Int := yoe * 365 + yoe / 4 - yoe / 100 + doy
  era * 146097 + doe - 719468

/-- `last_date = pd.to_datetime('2024-01-01')` — the hardcoded anchor. -/
def last_date : Int := daysFromCivil 2024 1 1

/-- `pd.date_range(start=start, periods=periods, freq='D')` as day numbers;
pandas rejects a negative `periods`. -/
def date_range (start : Int) (periods : Int) : Except String (List Int) :=
  if periods < 0 then Except.error ("periods must be a non-negative integer")
  else Except.ok ((List.range periods.toNat).map (fun i : Nat => start + (i : Int)))

/-! ## Series store and statsmodels backend -/

/-- The durable storage the four `np.load` calls read from.  `load` fails
when the named file is missing or unreadable. -/
structure SeriesStore (α : Type) where
  load : String → Except String (List α)

/-- `load_timeseries(file_path)` = `np.load(file_path)`. -/
def load_timeseries (store : SeriesStore α) (file_path : String) :
    Except String (List α) :=
  store.load file_path

def endDiffPath : String := "data/preprocessed/end_diff.npy"
def endSeasonalDiffPath : String := "data/preprocessed/end_seasonal_diff.npy"
def exgDiffPath : String := "data/preprocessed/exg_diff.npy"
def exgSeasonalDiffPath : String := "data/preprocessed/exg_seasonal_diff.npy"

/-- A fitted statsmodels results object: `get_forecast(steps, exog)`
returning (`predicted_mean`, `conf_int()` rows as (lower, upper) pairs),
or raising. -/
structure FittedModel (α : Type) where
  get_forecast : Int → List Int → Except String (List α × List (α × α))

/-- The opaque statsmodels capability: construct-and-fit for each model
family; either step may raise. -/
structure StatsBackend (α : Type) where
  ARIMA : List α → List α → Int × Int × Int →
    Except String (FittedModel α)
  SARIMAX : List α → List α → Int × Int × Int → Int × Int × Int × Int →
    Except String (FittedModel α)

/-! ## Request binding (FastAPI `Query` / `Body` defaults) -/

/-- The endpoint's bound parameters, after FastAPI applies defaults. -/
structure BoundParams where
  method : PyStr
  steps : Int
  order_p : Int
  order_d : Int
  order_q : Int
  seasonal_p : Int
  seasonal_d : Int
  seasonal_q : Int
  seasonal_m : Int
  usd_rates : List Int
  deriving DecidableEq, Repr

/-- Raw query parameters as supplied by the caller (absent = `none`). -/
structure RawQuery where
  method : Option PyStr
  steps : Option Int
  order_p : Option Int
  order_d : Option Int
  order_q : Option Int
  seasonal_p : Option Int
  seasonal_d : Option Int
  seasonal_q : Option Int
  seasonal_m : Option Int
  deriving DecidableEq, Repr

/-- Raw request body (absent = `none`). -/
structure RawBody where
  usd_rates : Option (List Int)
  deriving DecidableEq, Repr

/-- FastAPI parameter binding for `forecast_time_series`: `method` and
`usd_rates` are declared with `Query(...)` / `Body(...)` (required, no
default); the rest carry the declared defaults 10, 4, 0, 4, 0, 0, 0, 12. -/
def bindParams (q : RawQuery) (b : RawBody) : Except String BoundParams :=
  match q.method, b.usd_rates with
  | some m, some u =>
    Except.ok
      { method := m
        steps := q.steps.getD 10
        order_p := q.order_p.getD 4
        order_d := q.order_d.getD 0
        order_q := q.order_q.getD 4
        seasonal_p := q.seasonal_p.getD 0
        seasonal_d := q.seasonal_d.getD 0
        seasonal_q := q.seasonal_q.getD 0
        seasonal_m := q.seasonal_m.getD 12
        usd_rates := u }
  | _, _ => Except.error ("field required")

/-! ## Responses, rows, events -/

/-- One row of the assembled `results` DataFrame. -/
structure Row (α : Type) where
  date : Int
  forecast : α
  lower_ci : α
  upper_ci : α
  deriving DecidableEq, Repr

/-- The method-dependent content of the 200 HTML response: the rendered
table rows and every interpolated parameter echo. -/
structure SuccessResponse (α : Type) where
  status : Nat
  title : PyStr
  steps : Int
  rows : List (Row α)
  order_echo : Int × Int × Int
  seasonal_echo : Option (Int × Int × Int × Int)
  deriving DecidableEq, Repr

/-- Outcome of one request: a 200 response, a raised `HTTPException`
(status + detail), or an exception that escaped the handler (raised
outside the `try:` block). -/
inductive Outcome (α : Type) where
  | success (r : SuccessResponse α)
  | httpError (status : Nat) (detail : String)
  | crash (msg : String)
  deriving DecidableEq, Repr

/-- Trace of the pipeline's calls into the store and the statsmodels
library. -/
inductive Event (α : Type) where
  | load (path : String)
  | fitARIMA (endog exog : List α) (order : Int × Int × Int)
  | fitSARIMAX (endog exog : List α) (order : Int × Int × Int)
      (seasonal_order : Int × Int × Int × Int)
  | getForecastCall (steps : Int) (exog : List Int)
  deriving DecidableEq, Repr

/-! ## The pipeline -/

/-- Lines 120-128 of `api.py`: `pd.date_range` from the day after the
anchor, then the `pd.DataFrame` zip of dates, `forecast_mean` and the two
`conf_int` columns (pandas raises when the columns' lengths differ). -/
def assembleResults (steps : Int) (mean : List α) (ci : List (α × α)) :
    Except String (List (Row α)) :=
  match date_range (last_date + 1) steps with
  | Except.error e => Except.error e
  | Except.ok forecast_dates =>
    if forecast_dates.length = mean.length ∧ mean.length = ci.length then
      Except.ok ((forecast_dates.zip (mean.zip ci)).map
        (fun x => { date := x.1, forecast := x.2.1,
                    lower_ci := x.2.2.1, upper_ci := x.2.2.2 }))
    else Except.error ("All arrays must be of the same length")

/-- One model branch of the `try:` block: construct-and-fit (given as the
already-applied backend call and its trace event), then
`get_forecast(steps=steps, exog=usd_rates)`, then assembly. -/
def runModel (fit_result : Except String (FittedModel α)) (fit_event : Event α)
    (steps : Int) (usd_rates : List Int) :
    Except String (List (Row α)) × List (Event α) :=
  match fit_result with
  | Except.error e => (Except.error e, [fit_event])
  | Except.ok fitted_model =>
    match fitted_model.get_forecast steps usd_rates with
    | Except.error e =>
      (Except.error e, [fit_event, Event.getForecastCall steps usd_rates])
    | Except.ok mc =>
      (assembleResults steps mc.1 mc.2,
       [fit_event, Event.getForecastCall steps usd_rates])

/-- The model branch taken inside the `try:` block: `if method.lower() ==
"arima"` fit ARIMA on the seasonally-differenced pair, `else` fit SARIMAX
on the (`end_diff`, `exg_diff`) pair; then `get_forecast` and assembly. -/
def branchResult (backend : StatsBackend α) (p : BoundParams)
    (ts_end ts_end_seasonal_diff ts_exg ts_exg_seasonal_diff : List α) :
    Except String (List (Row α)) × List (Event α) :=
  if pyLower p.method = pyOfString ("arima") then
    runModel
      (backend.ARIMA ts_end_seasonal_diff ts_exg_seasonal_diff
        (p.order_p, p.order_d, p.order_q))
      (Event.fitARIMA ts_end_seasonal_diff ts_exg_seasonal_diff
        (p.order_p, p.order_d, p.order_q))
      p.steps p.usd_rates
  else
    runModel
      (backend.SARIMAX ts_end ts_exg
        (p.order_p, p.order_d, p.order_q)
        (p.seasonal_p, p.seasonal_d, p.seasonal_q, p.seasonal_m))
      (Event.fitSARIMAX ts_end ts_exg
        (p.order_p, p.order_d, p.order_q)
        (p.seasonal_p, p.seasonal_d, p.seasonal_q, p.seasonal_m))
      p.steps p.usd_rates

/-- The `try: ... except:` region of `forecast_time_series`, after the four
series are loaded: branch on `method.lower()`, fit, forecast, assemble,
and either render the 200 response or map the exception to the generic
500 `HTTPException`. -/
def pipelineAfterLoads (backend : StatsBackend α) (p : BoundParams)
    (ts_end ts_end_seasonal_diff ts_exg ts_exg_seasonal_diff : List α) :
    Outcome α × List (Event α) :=
  match branchResult backend p ts_end ts_end_seasonal_diff ts_exg
      ts_exg_seasonal_diff with
  | (Except.error e, evs) =>
    (Outcome.httpError 500 (("Error in forecast generation: ") ++ e), evs)
  | (Except.ok rows, evs) =>
    (Outcome.success
      { status := 200
        title := pyUpper p.method ++ pyOfString (" Forecast Results")
        steps := p.steps
        rows := rows
        order_echo := (p.order_p, p.order_d, p.order_q)
        seasonal_echo :=
          if pyLower p.method = pyOfString ("sarima") then
            some (p.seasonal_p, p.seasonal_d, p.seasonal_q, p.seasonal_m)
          else none },
     evs)

/-- The four `load_timeseries` events, in program order. -/
def loadEvents {α : Type} : List (Event α) :=
  [Event.load endDiffPath, Event.load endSeasonalDiffPath,
   Event.load exgDiffPath, Event.load exgSeasonalDiffPath]

/-- The endpoint `forecast_time_series`: reject an unrecognized
`method.lower()` with a 400 `HTTPException`; load the four series (outside
the `try:` block — a failure here escapes as `Outcome.crash`); run the
guarded fit/forecast pipeline. -/
def forecast_time_series (backend : StatsBackend α) (store : SeriesStore α)
    (p : BoundParams) : Outcome α × List (Event α) :=
  if pyLower p.method = pyOfString ("arima") ∨
      pyLower p.method = pyOfString ("sarima") then
    match load_timeseries store endDiffPath with
    | Except.error e => (Outcome.crash e, [Event.load endDiffPath])
    | Except.ok ts_end =>
      match load_timeseries store endSeasonalDiffPath with
      | Except.error e =>
        (Outcome.crash e,
         [Event.load endDiffPath, Event.load endSeasonalDiffPath])
      | Except.ok ts_end_seasonal_diff =>
        match load_timeseries store exgDiffPath with
        | Except.error e =>
          (Outcome.crash e,
           [Event.load endDiffPath, Event.load endSeasonalDiffPath,
            Event.load exgDiffPath])
        | Except.ok ts_exg =>
          match load_timeseries store exgSeasonalDiffPath with
          | Except.error e =>
            (Outcome.crash e,
             [Event.load endDiffPath, Event.load endSeasonalDiffPath,
              Event.load exgDiffPath, Event.load exgSeasonalDiffPath])
          | Except.ok ts_exg_seasonal_diff =>
            let res := pipelineAfterLoads backend p ts_end
              ts_end_seasonal_diff ts_exg ts_exg_seasonal_diff
            (res.1, loadEvents ++ res.2)
  else
    (Outcome.httpError 400 ("Method must be either 'arima' or 'sarima'"), [])

/-! ## Concrete test fixtures (used by witnesses and counterexamples) -/

/-- Concrete store contents: a distinct small series per file. -/
def testSeries (path : String) : List Int :=
  if path = endDiffPath then [11, 12, 13]
  else if path = endSeasonalDiffPath then [21, 22, 23]
  else if path = exgDiffPath then [31, 32, 33]
  else if path = exgSeasonalDiffPath then [41, 42, 43]
  else []

/-- A store whose four files all load successfully. -/
def testStore : SeriesStore Int :=
  { load := fun path => Except.ok (testSeries path) }

/-- A store where every read raises (missing data directory). -/
def missingStore : SeriesStore Int :=
  { load := fun path => Except.error (("No such file or directory: ") ++ path) }

/-- A fitted-model double mirroring statsmodels' behaviour at forecast
time: `get_forecast(steps, exog)` succeeds only when `steps` is positive
and `exog` has exactly `steps` entries, returning constant outputs. -/
def statsFitted : FittedModel Int :=
  { get_forecast := fun steps exog =>
      if 0 < steps ∧ steps = (exog.length : Int) then
        Except.ok (List.replicate steps.toNat 7,
                   List.replicate steps.toNat (5, 9))
      else
        Except.error ("Provided exogenous values are not of the appropriate shape") }

/-- A backend double whose fits always converge to `statsFitted`. -/
def okBackend : StatsBackend Int :=
  { ARIMA := fun _ _ _ => Except.ok statsFitted
    SARIMAX := fun _ _ _ _ => Except.ok statsFitted }

/-- A well-formed arima request: 3 steps, 3 future exogenous values. -/
def pGood : BoundParams :=
  { method := pyOfString ("arima")
    steps := 3
    order_p := 4
    order_d := 0
    order_q := 4
    seasonal_p := 0
    seasonal_d := 0
    seasonal_q := 0
    seasonal_m := 12
    usd_rates := [100, 101, 102] }

/-- The spec's mismatch scenario: `steps = 5` with 4 exogenous values. -/
def pMismatch : BoundParams :=
  { pGood with steps := 5, usd_rates := [100, 101, 102, 103] }

/-- A well-formed sarima request. -/
def pSarima : BoundParams :=
  { pGood with method := pyOfString ("sarima") }

/-- An unrecognized method. -/
def pInvalid : BoundParams :=
  { pGood with method := pyOfString ("invalid") }

/-! ## Helper lemmas -/

theorem upperCP_eq_of_lowerCP_eq {c₁ c₂ : Nat} (h : lowerCP c₁ = lowerCP c₂) :
    upperCP c₁ = upperCP c₂ := by
  simp only [lowerCP, upperCP] at *
  split_ifs at * <;> omega

theorem pyUpper_eq_of_pyLower_eq {s₁ s₂ : PyStr} (h : pyLower s₁ = pyLower s₂) :
    pyUpper s₁ = pyUpper s₂ := by
  induction s₁ generalizing s₂ with
  | nil => cases s₂ <;> simp_all [pyLower, pyUpper]
  | cons c t ih =>
    cases s₂ with
    | nil => simp_all [pyLower, pyUpper]
    | cons c₂ t₂ =>
      simp only [pyLower, pyUpper, List.map_cons, List.cons.injEq] at h ⊢
      exact ⟨upperCP_eq_of_lowerCP_eq h.1, ih h.2⟩

/-- The trace of one model branch: the fit event, followed by the
forecast call when the fit succeeded. -/
theorem runModel_trace (fr : Except String (FittedModel α)) (ev : Event α)
    (steps : Int) (usd : List Int) :
    (runModel fr ev steps usd).2 = [ev] ∨
    (runModel fr ev steps usd).2 = [ev, Event.getForecastCall steps usd] := by
  cases fr with
  | error e => left; rfl
  | ok fitted =>
    cases hgf : fitted.get_forecast steps usd with
    | error e => right; simp [runModel, hgf]
    | ok mc => right; simp [runModel, hgf]

/-- Inverting a successful model branch: the fit and the forecast call
both succeeded and the rows come from `assembleResults`. -/
theorem runModel_ok_inv {fr : Except String (FittedModel α)} {ev : Event α}
    {steps : Int} {usd : List Int} {rows : List (Row α)} {evs : List (Event α)}
    (h : runModel fr ev steps usd = (Except.ok rows, evs)) :
    ∃ fitted mean ci, fr = Except.ok fitted ∧
      fitted.get_forecast steps usd = Except.ok (mean, ci) ∧
      assembleResults steps mean ci = Except.ok rows := by
  cases fr with
  | error e => simp [runModel] at h
  | ok fitted =>
    cases hgf : fitted.get_forecast steps usd with
    | error e => simp [runModel, hgf] at h
    | ok mc =>
      simp only [runModel, hgf, Prod.mk.injEq] at h
      exact ⟨fitted, mc.1, mc.2, rfl, by rw [hgf], h.1⟩

/-- Inverting a successful assembly: `steps` is non-negative, the three
data columns all have exactly `steps.toNat` entries, and the rows are the
zip of the generated dates with the forecast columns. -/
theorem assembleResults_ok_inv {steps : Int} {mean : List α}
    {ci : List (α × α)} {rows : List (Row α)}
    (h : assembleResults steps mean ci = Except.ok rows) :
    0 ≤ steps ∧ mean.length = steps.toNat ∧ ci.length = steps.toNat ∧
    rows = (((List.range steps.toNat).map
        (fun i : Nat => last_date + 1 + (i : Int))).zip (mean.zip ci)).map
      (fun x => { date := x.1, forecast := x.2.1,
                  lower_ci := x.2.2.1, upper_ci := x.2.2.2 }) := by
  by_cases hneg : steps < 0
  · simp [assembleResults, date_range, hneg] at h
  · by_cases hlen : steps.toNat = mean.length ∧ mean.length = ci.length
    · simp only [assembleResults, date_range, if_neg hneg, List.length_map,
        List.length_range, hlen.1, hlen.2, and_self, if_true,
        Except.ok.injEq] at h
      refine ⟨by omega, hlen.1.symm, by omega, ?_⟩
      rw [hlen.1, hlen.2]
      exact h.symm
    · simp only [assembleResults, date_range, if_neg hneg, List.length_map,
        List.length_range] at h
      rw [if_neg hlen] at h
      exact Except.noConfusion h

/-- A successful assembly has exactly `steps.toNat` rows. -/
theorem assembleResults_length {steps : Int} {mean : List α}
    {ci : List (α × α)} {rows : List (Row α)}
    (h : assembleResults steps mean ci = Except.ok rows) :
    rows.length = steps.toNat := by
  obtain ⟨-, hm, hc, hrows⟩ := assembleResults_ok_inv h
  subst hrows
  simp [List.length_zip, hm, hc]

/-- The four columns of a successful assembly, recovered from the rows:
the dates are the generated axis, and the forecast / lower / upper columns
are the model outputs passed through unchanged. -/
theorem assembleResults_columns {steps : Int} {mean : List α}
    {ci : List (α × α)} {rows : List (Row α)}
    (h : assembleResults steps mean ci = Except.ok rows) :
    rows.map Row.date =
        (List.range steps.toNat).map (fun i : Nat => last_date + 1 + (i : Int)) ∧
    rows.map Row.forecast = mean ∧
    rows.map Row.lower_ci = ci.map Prod.fst ∧
    rows.map Row.upper_ci = ci.map Prod.snd := by
  obtain ⟨-, hm, hc, hrows⟩ := assembleResults_ok_inv h
  subst hrows
  have hdl : ((List.range steps.toNat).map
      (fun i : Nat => last_date + 1 + (i : Int))).length ≤ (mean.zip ci).length := by
    simp [List.length_zip, hm, hc]
  have hmc : mean.length ≤ ci.length := by omega
  have hcm : ci.length ≤ mean.length := by omega
  have hzl : (mean.zip ci).length ≤ ((List.range steps.toNat).map
      (fun i : Nat => last_date + 1 + (i : Int))).length := by
    simp [List.length_zip, hm, hc]
  refine ⟨?_, ?_, ?_, ?_⟩
  · rw [List.map_map]
    exact List.map_fst_zip _ _ hdl
  · rw [List.map_map]
    have : (List.map (Prod.fst ∘ Prod.snd) (((List.range steps.toNat).map
        (fun i : Nat => last_date + 1 + (i : Int))).zip (mean.zip ci))) = mean := by
      rw [← List.map_map, List.map_snd_zip _ _ hzl]
      exact List.map_fst_zip _ _ hmc
    exact this
  · rw [List.map_map]
    have : (List.map ((Prod.fst ∘ Prod.snd) ∘ Prod.snd)
        (((List.range steps.toNat).map
        (fun i : Nat => last_date + 1 + (i : Int))).zip (mean.zip ci))) =
        ci.map Prod.fst := by
      rw [← List.map_map, List.map_snd_zip _ _ hzl, ← List.map_map,
        List.map_snd_zip _ _ hcm]
    exact this
  · rw [List.map_map]
    have : (List.map ((Prod.snd ∘ Prod.snd) ∘ Prod.snd)
        (((List.range steps.toNat).map
        (fun i : Nat => last_date + 1 + (i : Int))).zip (mean.zip ci))) =
        ci.map Prod.snd := by
      rw [← List.map_map, List.map_snd_zip _ _ hzl, ← List.map_map,
        List.map_snd_zip _ _ hcm]
    exact this

/-- Row `i` of a successful assembly carries the day number
`last_date + (i + 1)`. -/
theorem assembleResults_date_at {steps : Int} {mean : List α}
    {ci : List (α × α)} {rows : List (Row α)}
    (h : assembleResults steps mean ci = Except.ok rows) :
    ∀ i : Fin rows.length, (rows.get i).date = last_date + 1 + (i : Int) := by
  intro i
  have hcols := (assembleResults_columns h).1
  have hlen := assembleResults_length h
  have hi : (i : Nat) < rows.length := i.isLt
  have hi2 : (i : Nat) < steps.toNat := by omega
  have e1 : (List.map Row.date rows)[(i : Nat)]? =
      ((List.range steps.toNat).map
        (fun i : Nat => last_date + 1 + (i : Int)))[(i : Nat)]? := by
    rw [hcols]
  simp only [List.getElem?_map, List.getElem?_eq_getElem, hi, hi2,
    List.getElem?_range, Option.map_some', Option.some.injEq,
    List.getElem_range] at e1
  simpa [List.get_eq_getElem] using e1

/-- With a recognized method and all four series readable, the endpoint
is the guarded pipeline, its trace prefixed by the four load events. -/
theorem forecast_time_series_eq_of_loads (backend : StatsBackend α)
    (store : SeriesStore α) (p : BoundParams)
    {tse tsesd tsx tsxsd : List α}
    (hm : pyLower p.method = pyOfString ("arima") ∨
      pyLower p.method = pyOfString ("sarima"))
    (h1 : store.load endDiffPath = Except.ok tse)
    (h2 : store.load endSeasonalDiffPath = Except.ok tsesd)
    (h3 : store.load exgDiffPath = Except.ok tsx)
    (h4 : store.load exgSeasonalDiffPath = Except.ok tsxsd) :
    forecast_time_series backend store p =
      ((pipelineAfterLoads backend p tse tsesd tsx tsxsd).1,
       loadEvents ++ (pipelineAfterLoads backend p tse tsesd tsx tsxsd).2) := by
  rcases hm with hm | hm <;>
    simp only [forecast_time_series, load_timeseries, h1, h2, h3, h4, hm,
      true_or, or_true, if_true]

/-- The guarded pipeline's trace is the chosen branch's trace. -/
theorem pipelineAfterLoads_trace (backend : StatsBackend α) (p : BoundParams)
    (tse tsesd tsx tsxsd : List α) :
    (pipelineAfterLoads backend p tse tsesd tsx tsxsd).2 =
      (branchResult backend p tse tsesd tsx tsxsd).2 := by
  rcases hbr : branchResult backend p tse tsesd tsx tsxsd with ⟨res, evs⟩
  cases res <;> simp [pipelineAfterLoads, hbr]

/-- The guarded pipeline yields either a 200 response or the generic 500
error; nothing else. -/
theorem pipelineAfterLoads_cases (backend : StatsBackend α) (p : BoundParams)
    (tse tsesd tsx tsxsd : List α) :
    (∃ r, (pipelineAfterLoads backend p tse tsesd tsx tsxsd).1 =
        Outcome.success r) ∨
    (∃ msg, (pipelineAfterLoads backend p tse tsesd tsx tsxsd).1 =
        Outcome.httpError 500 (("Error in forecast generation: ") ++ msg)) := by
  rcases hbr : branchResult backend p tse tsesd tsx tsxsd with ⟨res, evs⟩
  cases res with
  | error e => right; exact ⟨e, by simp [pipelineAfterLoads, hbr]⟩
  | ok rows =>
    left
    refine ⟨{ status := 200
              title := pyUpper p.method ++ pyOfString (" Forecast Results")
              steps := p.steps
              rows := rows
              order_echo := (p.order_p, p.order_d, p.order_q)
              seasonal_echo :=
                if pyLower p.method = pyOfString ("sarima") then
                  some (p.seasonal_p, p.seasonal_d, p.seasonal_q, p.seasonal_m)
                else none }, ?_⟩
    simp [pipelineAfterLoads, hbr]

/-- Inverting a 200 response of the guarded pipeline: the response echoes
the request, the branch chosen by `method.lower()` fitted successfully,
the forecast call succeeded, and the rows are the assembled columns. -/
theorem pipelineAfterLoads_success_inv {backend : StatsBackend α}
    {p : BoundParams} {tse tsesd tsx tsxsd : List α} {r : SuccessResponse α}
    (h : (pipelineAfterLoads backend p tse tsesd tsx tsxsd).1 =
      Outcome.success r) :
    r.status = 200 ∧ r.steps = p.steps ∧
    r.title = pyUpper p.method ++ pyOfString (" Forecast Results") ∧
    r.order_echo = (p.order_p, p.order_d, p.order_q) ∧
    ∃ fitted mean ci,
      ((pyLower p.method = pyOfString ("arima") ∧
        backend.ARIMA tsesd tsxsd (p.order_p, p.order_d, p.order_q) =
          Except.ok fitted) ∨
       (pyLower p.method ≠ pyOfString ("arima") ∧
        backend.SARIMAX tse tsx (p.order_p, p.order_d, p.order_q)
          (p.seasonal_p, p.seasonal_d, p.seasonal_q, p.seasonal_m) =
          Except.ok fitted)) ∧
      fitted.get_forecast p.steps p.usd_rates = Except.ok (mean, ci) ∧
      assembleResults p.steps mean ci = Except.ok r.rows := by
  rcases hbr : branchResult backend p tse tsesd tsx tsxsd with ⟨res, evs⟩
  cases res with
  | error e => simp [pipelineAfterLoads, hbr] at h
  | ok rows =>
    simp only [pipelineAfterLoads, hbr, Outcome.success.injEq] at h
    subst h
    refine ⟨rfl, rfl, rfl, rfl, ?_⟩
    by_cases ha : pyLower p.method = pyOfString ("arima")
    · rw [branchResult, if_pos ha] at hbr
      obtain ⟨fitted, mean, ci, hfit, hgf, hasm⟩ := runModel_ok_inv hbr
      exact ⟨fitted, mean, ci, Or.inl ⟨ha, hfit⟩, hgf, hasm⟩
    · rw [branchResult, if_neg ha] at hbr
      obtain ⟨fitted, mean, ci, hfit, hgf, hasm⟩ := runModel_ok_inv hbr
      exact ⟨fitted, mean, ci, Or.inr ⟨ha, hfit⟩, hgf, hasm⟩

/-- Inverting a 200 response of the whole endpoint: the method was
recognized, all four loads succeeded, and the guarded pipeline produced
the response. -/
theorem forecast_success_inv {backend : StatsBackend α}
    {store : SeriesStore α} {p : BoundParams} {r : SuccessResponse α}
    {evs : List (Event α)}
    (h : forecast_time_series backend store p = (Outcome.success r, evs)) :
    (pyLower p.method = pyOfString ("arima") ∨
      pyLower p.method = pyOfString ("sarima")) ∧
    ∃ tse tsesd tsx tsxsd,
      store.load endDiffPath = Except.ok tse ∧
      store.load endSeasonalDiffPath = Except.ok tsesd ∧
      store.load exgDiffPath = Except.ok tsx ∧
      store.load exgSeasonalDiffPath = Except.ok tsxsd ∧
      (pipelineAfterLoads backend p tse tsesd tsx tsxsd).1 =
        Outcome.success r := by
  rw [forecast_time_series] at h
  split at h
  · rename_i hm
    rw [load_timeseries] at h
    split at h
    · exact absurd (congrArg Prod.fst h) (by simp)
    · rename_i tse h1
      rw [load_timeseries] at h
      split at h
      · exact absurd (congrArg Prod.fst h) (by simp)
      · rename_i tsesd h2
        rw [load_timeseries] at h
        split at h
        · exact absurd (congrArg Prod.fst h) (by simp)
        · rename_i tsx h3
          rw [load_timeseries] at h
          split at h
          · exact absurd (congrArg Prod.fst h) (by simp)
          · rename_i tsxsd h4
            refine ⟨hm, tse, tsesd, tsx, tsxsd, h1, h2, h3, h4, ?_⟩
            have := congrArg Prod.fst h
            simpa using this
  · exact absurd (congrArg Prod.fst h) (by simp)

/-! ## Claims -/

/-- C3: for every request whose method (after case folding) is not
`arima` or `sarima`, the endpoint raises the 400 client error with an
empty trace: no fitting and no series loading is performed. -/
theorem claim_C3_unrecognized_method (backend : StatsBackend α)
    (store : SeriesStore α) (p : BoundParams)
    (h1 : pyLower p.method ≠ pyOfString ("arima"))
    (h2 : pyLower p.method ≠ pyOfString ("sarima")) :
    forecast_time_series backend store p =
      (Outcome.httpError 400 ("Method must be either 'arima' or 'sarima'"),
       []) := by
  have hc : ¬ (pyLower p.method = pyOfString ("arima") ∨
      pyLower p.method = pyOfString ("sarima")) := by
    rintro (hh | hh)
    · exact h1 hh
    · exact h2 hh
  rw [forecast_time_series, if_neg hc]

/-- Witness for C3 at the spec's `method = "invalid"` scenario. -/
theorem claim_C3_witness :
    forecast_time_series okBackend testStore pInvalid =
      (Outcome.httpError 400 ("Method must be either 'arima' or 'sarima'"),
       []) :=
  claim_C3_unrecognized_method okBackend testStore pInvalid
    (by decide) (by decide)

/-- C8: omitting every optional parameter binds the documented defaults
`steps = 10`, order `(4, 0, 4)`, seasonal order `(0, 0, 0, 12)`; `method`
(and the `usd_rates` body) have no default and binding fails without
them. -/
theorem claim_C8_defaults (m : PyStr) (u : List Int) (q : RawQuery)
    (b : RawBody) :
    bindParams
      { method := some m, steps := none, order_p := none, order_d := none,
        order_q := none, seasonal_p := none, seasonal_d := none,
        seasonal_q := none, seasonal_m := none }
      { usd_rates := some u } =
      Except.ok
        { method := m, steps := 10, order_p := 4, order_d := 0,
          order_q := 4, seasonal_p := 0, seasonal_d := 0, seasonal_q := 0,
          seasonal_m := 12, usd_rates := u } ∧
    (q.method = none → ∃ e, bindParams q b = Except.error e) := by
  refine ⟨rfl, fun hq => ⟨"field required", ?_⟩⟩
  rcases b with ⟨u2⟩
  cases u2 <;> simp [bindParams, hq]

/-- Witness for C8: a request carrying only `method` and the body. -/
theorem claim_C8_witness :
    bindParams
      { method := some (pyOfString ("arima")), steps := none,
        order_p := none, order_d := none, order_q := none,
        seasonal_p := none, seasonal_d := none, seasonal_q := none,
        seasonal_m := none }
      { usd_rates := some [1, 2] } =
      Except.ok
        { method := pyOfString ("arima"), steps := 10, order_p := 4,
          order_d := 0, order_q := 4, seasonal_p := 0, seasonal_d := 0,
          seasonal_q := 0, seasonal_m := 12, usd_rates := [1, 2] } :=
  (claim_C8_defaults (pyOfString ("arima")) [1, 2]
    { method := none, steps := none, order_p := none, order_d := none,
      order_q := none, seasonal_p := none, seasonal_d := none,
      seasonal_q := none, seasonal_m := none }
    { usd_rates := none }).1

/-- C1: with the four series readable, an `arima` request fits on the
seasonally-differenced (endogenous, exogenous) pair and never touches
SARIMAX; a `sarima` request fits on the non-seasonally-differenced
(`end_diff`, `exg_diff`) pair and never touches ARIMA. -/
theorem claim_C1_series_pairing (backend : StatsBackend α)
    (store : SeriesStore α) (p : BoundParams)
    {tse tsesd tsx tsxsd : List α}
    (h1 : store.load endDiffPath = Except.ok tse)
    (h2 : store.load endSeasonalDiffPath = Except.ok tsesd)
    (h3 : store.load exgDiffPath = Except.ok tsx)
    (h4 : store.load exgSeasonalDiffPath = Except.ok tsxsd) :
    (pyLower p.method = pyOfString ("arima") →
      Event.fitARIMA tsesd tsxsd (p.order_p, p.order_d, p.order_q) ∈
        (forecast_time_series backend store p).2 ∧
      ∀ en ex o so, Event.fitSARIMAX en ex o so ∉
        (forecast_time_series backend store p).2) ∧
    (pyLower p.method = pyOfString ("sarima") →
      Event.fitSARIMAX tse tsx (p.order_p, p.order_d, p.order_q)
          (p.seasonal_p, p.seasonal_d, p.seasonal_q, p.seasonal_m) ∈
        (forecast_time_series backend store p).2 ∧
      ∀ en ex o, Event.fitARIMA en ex o ∉
        (forecast_time_series backend store p).2) := by
  constructor
  · intro hm
    rw [forecast_time_series_eq_of_loads backend store p (Or.inl hm)
      h1 h2 h3 h4]
    have hbr2 := pipelineAfterLoads_trace backend p tse tsesd tsx tsxsd
    rw [branchResult, if_pos hm] at hbr2
    rcases runModel_trace
        (backend.ARIMA tsesd tsxsd (p.order_p, p.order_d, p.order_q))
        (Event.fitARIMA tsesd tsxsd (p.order_p, p.order_d, p.order_q))
        p.steps p.usd_rates with htr | htr <;>
      rw [htr] at hbr2 <;>
      exact ⟨by simp [hbr2, loadEvents], by simp [hbr2, loadEvents]⟩
  · intro hm
    have hna : pyLower p.method ≠ pyOfString ("arima") := by
      rw [hm]; decide
    rw [forecast_time_series_eq_of_loads backend store p (Or.inr hm)
      h1 h2 h3 h4]
    have hbr2 := pipelineAfterLoads_trace backend p tse tsesd tsx tsxsd
    rw [branchResult, if_neg hna] at hbr2
    rcases runModel_trace
        (backend.SARIMAX tse tsx (p.order_p, p.order_d, p.order_q)
          (p.seasonal_p, p.seasonal_d, p.seasonal_q, p.seasonal_m))
        (Event.fitSARIMAX tse tsx (p.order_p, p.order_d, p.order_q)
          (p.seasonal_p, p.seasonal_d, p.seasonal_q, p.seasonal_m))
        p.steps p.usd_rates with htr | htr <;>
      rw [htr] at hbr2 <;>
      exact ⟨by simp [hbr2, loadEvents], by simp [hbr2, loadEvents]⟩

/-- Witness for C1: the `arima` fixture fits on the seasonally-differenced
pair. -/
theorem claim_C1_witness :
    Event.fitARIMA (testSeries endSeasonalDiffPath)
        (testSeries exgSeasonalDiffPath) (4, 0, 4) ∈
      (forecast_time_series okBackend testStore pGood).2 :=
  ((claim_C1_series_pairing okBackend testStore pGood
    rfl rfl rfl rfl).1 (by decide)).1

/-- The endpoint's exact 200 response on the `pGood` fixture. -/
def rGood : SuccessResponse Int :=
  { status := 200
    title := pyOfString ("ARIMA Forecast Results")
    steps := 3
    rows := [{ date := 19724, forecast := 7, lower_ci := 5, upper_ci := 9 },
             { date := 19725, forecast := 7, lower_ci := 5, upper_ci := 9 },
             { date := 19726, forecast := 7, lower_ci := 5, upper_ci := 9 }]
    order_echo := (4, 0, 4)
    seasonal_echo := none }

/-- The endpoint's exact trace on the `pGood` fixture. -/
def evsGood : List (Event Int) :=
  loadEvents ++ [Event.fitARIMA [21, 22, 23] [41, 42, 43] (4, 0, 4),
                 Event.getForecastCall 3 [100, 101, 102]]

/-- C2 counterexample: `steps = 5` with a 4-element `usd_rates` body is
not rejected with a client error — the model is constructed and fit (the
ARIMA fit event is in the trace) and the length mismatch surfaces from
the forecast call as the generic 500 server error. -/
theorem claim_C2_counterexample :
    (forecast_time_series okBackend testStore pMismatch).1 =
      Outcome.httpError 500
        ("Error in forecast generation: Provided exogenous values are not of the appropriate shape") ∧
    Event.fitARIMA (testSeries endSeasonalDiffPath)
        (testSeries exgSeasonalDiffPath) (4, 0, 4) ∈
      (forecast_time_series okBackend testStore pMismatch).2 := by
  decide

/-- C2 amended: the endpoint performs no horizon or exogenous-length
validation.  For a recognized method — even with a non-positive horizon
or a mismatched future-exogenous length — the fitting pipeline is always
entered (a fit event occurs), and the request never fails with a 400
client error: any failure surfaces inside the pipeline and is mapped to
the generic 500 response. -/
theorem claim_C2_amended (backend : StatsBackend α) (store : SeriesStore α)
    (p : BoundParams) {tse tsesd tsx tsxsd : List α}
    (h1 : store.load endDiffPath = Except.ok tse)
    (h2 : store.load endSeasonalDiffPath = Except.ok tsesd)
    (h3 : store.load exgDiffPath = Except.ok tsx)
    (h4 : store.load exgSeasonalDiffPath = Except.ok tsxsd)
    (hm : pyLower p.method = pyOfString ("arima") ∨
      pyLower p.method = pyOfString ("sarima"))
    (hbad : p.steps ≤ 0 ∨ (p.usd_rates.length : Int) ≠ p.steps) :
    (∃ en ex o,
      Event.fitARIMA en ex o ∈ (forecast_time_series backend store p).2 ∨
      ∃ so, Event.fitSARIMAX en ex o so ∈
        (forecast_time_series backend store p).2) ∧
    (∀ st d, (forecast_time_series backend store p).1 =
        Outcome.httpError st d →
      st = 500 ∧ ∃ msg, d = ("Error in forecast generation: ") ++ msg) := by
  rw [forecast_time_series_eq_of_loads backend store p hm h1 h2 h3 h4]
  have hbr2 := pipelineAfterLoads_trace backend p tse tsesd tsx tsxsd
  constructor
  · by_cases ha : pyLower p.method = pyOfString ("arima")
    · refine ⟨tsesd, tsxsd, (p.order_p, p.order_d, p.order_q), Or.inl ?_⟩
      rw [branchResult, if_pos ha] at hbr2
      rcases runModel_trace
          (backend.ARIMA tsesd tsxsd (p.order_p, p.order_d, p.order_q))
          (Event.fitARIMA tsesd tsxsd (p.order_p, p.order_d, p.order_q))
          p.steps p.usd_rates with htr | htr <;>
        rw [htr] at hbr2 <;> simp [hbr2, loadEvents]
    · refine ⟨tse, tsx, (p.order_p, p.order_d, p.order_q), Or.inr
        ⟨(p.seasonal_p, p.seasonal_d, p.seasonal_q, p.seasonal_m), ?_⟩⟩
      rw [branchResult, if_neg ha] at hbr2
      rcases runModel_trace
          (backend.SARIMAX tse tsx (p.order_p, p.order_d, p.order_q)
            (p.seasonal_p, p.seasonal_d, p.seasonal_q, p.seasonal_m))
          (Event.fitSARIMAX tse tsx (p.order_p, p.order_d, p.order_q)
            (p.seasonal_p, p.seasonal_d, p.seasonal_q, p.seasonal_m))
          p.steps p.usd_rates with htr | htr <;>
        rw [htr] at hbr2 <;> simp [hbr2, loadEvents]
  · intro st d heq
    rcases pipelineAfterLoads_cases backend p tse tsesd tsx tsxsd with
      ⟨r, hr⟩ | ⟨msg, hr⟩
    · rw [hr] at heq
      exact Outcome.noConfusion heq
    · rw [hr] at heq
      refine ⟨?_, msg, ?_⟩
      · exact (Outcome.httpError.inj heq).1.symm
      · exact (Outcome.httpError.inj heq).2.symm

/-- Witness for the amended C2: the mismatch fixture still fits a model. -/
theorem claim_C2_amended_witness :
    ∃ en ex o,
      Event.fitARIMA en ex o ∈
        (forecast_time_series okBackend testStore pMismatch).2 ∨
      ∃ so, Event.fitSARIMAX en ex o so ∈
        (forecast_time_series okBackend testStore pMismatch).2 :=
  (claim_C2_amended okBackend testStore pMismatch rfl rfl rfl rfl
    (by decide) (by decide)).1

/-- C4: every 200 response carries exactly `steps` rows (and `steps` is
necessarily non-negative). -/
theorem claim_C4_length_invariant (backend : StatsBackend α)
    (store : SeriesStore α) (p : BoundParams) (r : SuccessResponse α)
    (evs : List (Event α))
    (h : forecast_time_series backend store p = (Outcome.success r, evs)) :
    0 ≤ p.steps ∧ r.rows.length = p.steps.toNat ∧ r.status = 200 := by
  obtain ⟨-, tse, tsesd, tsx, tsxsd, -, -, -, -, hp⟩ := forecast_success_inv h
  obtain ⟨hstat, -, -, -, fitted, mean, ci, -, -, hasm⟩ :=
    pipelineAfterLoads_success_inv hp
  exact ⟨(assembleResults_ok_inv hasm).1, assembleResults_length hasm, hstat⟩

/-- Witness for C4 on the `pGood` fixture (3 steps, 3 rows). -/
theorem claim_C4_witness :
    0 ≤ pGood.steps ∧ rGood.rows.length = pGood.steps.toNat ∧
      rGood.status = 200 :=
  claim_C4_length_invariant okBackend testStore pGood rGood evsGood
    (by decide)

/-- C5: the date axis of every 200 response consists of consecutive
daily dates starting the day after the fixed anchor 2024-01-01:
row `i` is dated `last_date + (i + 1)`, dates are strictly increasing,
and consecutive rows differ by exactly one day. -/
theorem claim_C5_date_axis (backend : StatsBackend α)
    (store : SeriesStore α) (p : BoundParams) (r : SuccessResponse α)
    (evs : List (Event α))
    (h : forecast_time_series backend store p = (Outcome.success r, evs)) :
    (∀ i : Fin r.rows.length,
      (r.rows.get i).date = last_date + ((i : Int) + 1)) ∧
    (∀ i j : Fin r.rows.length, (i : Nat) < (j : Nat) →
      (r.rows.get i).date < (r.rows.get j).date) ∧
    (∀ i j : Fin r.rows.length, (j : Nat) = (i : Nat) + 1 →
      (r.rows.get j).date = (r.rows.get i).date + 1) := by
  obtain ⟨-, tse, tsesd, tsx, tsxsd, -, -, -, -, hp⟩ := forecast_success_inv h
  obtain ⟨-, -, -, -, fitted, mean, ci, -, -, hasm⟩ :=
    pipelineAfterLoads_success_inv hp
  have hd := assembleResults_date_at hasm
  refine ⟨fun i => ?_, fun i j hij => ?_, fun i j hij => ?_⟩
  · rw [hd i]; ring
  · rw [hd i, hd j]; omega
  · rw [hd i, hd j]; omega

/-- Witness for C5: the second row of the `pGood` fixture is dated two
days after the anchor. -/
theorem claim_C5_witness :
    (rGood.rows.get ⟨1, by decide⟩).date = last_date + ((1 : Int) + 1) :=
  (claim_C5_date_axis okBackend testStore pGood rGood evsGood
    (by decide)).1 ⟨1, by decide⟩

/-- C6: for a recognized method with readable series, the endpoint's
outcome is either a complete 200 response or the single generic 500
`HTTPException` whose detail is the caught exception's message prefixed
by `Error in forecast generation: ` — no other status and no error
subtype is ever surfaced, and the error constructor carries no rows. -/
theorem claim_C6_generic_500 (backend : StatsBackend α)
    (store : SeriesStore α) (p : BoundParams)
    {tse tsesd tsx tsxsd : List α}
    (h1 : store.load endDiffPath = Except.ok tse)
    (h2 : store.load endSeasonalDiffPath = Except.ok tsesd)
    (h3 : store.load exgDiffPath = Except.ok tsx)
    (h4 : store.load exgSeasonalDiffPath = Except.ok tsxsd)
    (hm : pyLower p.method = pyOfString ("arima") ∨
      pyLower p.method = pyOfString ("sarima")) :
    (∃ r, (forecast_time_series backend store p).1 = Outcome.success r) ∨
    (∃ msg, (forecast_time_series backend store p).1 =
      Outcome.httpError 500 (("Error in forecast generation: ") ++ msg)) := by
  rw [forecast_time_series_eq_of_loads backend store p hm h1 h2 h3 h4]
  simpa using pipelineAfterLoads_cases backend p tse tsesd tsx tsxsd

/-- Witness for C6: the mismatch fixture lands in the generic 500 arm. -/
theorem claim_C6_witness :
    (∃ r, (forecast_time_series okBackend testStore pMismatch).1 =
      Outcome.success r) ∨
    (∃ msg, (forecast_time_series okBackend testStore pMismatch).1 =
      Outcome.httpError 500 (("Error in forecast generation: ") ++ msg)) :=
  claim_C6_generic_500 okBackend testStore pMismatch rfl rfl rfl rfl
    (by decide)

/-- C9: `method` is case-insensitive — two requests differing only in the
letter case of `method` produce identical outcomes and identical traces
(same branch, same series, same model, same response). -/
theorem claim_C9_case_insensitive (backend : StatsBackend α)
    (store : SeriesStore α) (m1 m2 : PyStr)
    (st op od oq sp sd2 sq sm : Int) (usd : List Int)
    (h : pyLower m1 = pyLower m2) :
    forecast_time_series backend store
      { method := m1, steps := st, order_p := op, order_d := od,
        order_q := oq, seasonal_p := sp, seasonal_d := sd2,
        seasonal_q := sq, seasonal_m := sm, usd_rates := usd } =
    forecast_time_series backend store
      { method := m2, steps := st, order_p := op, order_d := od,
        order_q := oq, seasonal_p := sp, seasonal_d := sd2,
        seasonal_q := sq, seasonal_m := sm, usd_rates := usd } := by
  have hu := pyUpper_eq_of_pyLower_eq h
  simp only [forecast_time_series, load_timeseries, pipelineAfterLoads,
    branchResult, runModel, h, hu]

/-- Witness for C9: `ARIMA` and `arima` produce the same result. -/
theorem claim_C9_witness :
    forecast_time_series okBackend testStore
      { method := pyOfString ("ARIMA"), steps := 3, order_p := 4,
        order_d := 0, order_q := 4, seasonal_p := 0, seasonal_d := 0,
        seasonal_q := 0, seasonal_m := 12, usd_rates := [100, 101, 102] } =
    forecast_time_series okBackend testStore
      { method := pyOfString ("arima"), steps := 3, order_p := 4,
        order_d := 0, order_q := 4, seasonal_p := 0, seasonal_d := 0,
        seasonal_q := 0, seasonal_m := 12, usd_rates := [100, 101, 102] } :=
  claim_C9_case_insensitive okBackend testStore
    (pyOfString ("ARIMA")) (pyOfString ("arima"))
    3 4 0 4 0 0 0 12 [100, 101, 102] (by decide)

/-- C10: for a recognized method all four series files are loaded —
regardless of which pair the chosen model uses — and these loads happen
before the exception guard.  When all four succeed the trace is exactly
the four load events followed by the guarded pipeline's events (in both
branches); and when any one of the four files is missing or unreadable —
the loads run in program order, so a later load runs only after the
earlier ones succeeded — the exception escapes the handler (`crash`)
after exactly the loads attempted so far, and is never mapped to any
`HTTPException` response, the descriptive 500 included. -/
theorem claim_C10_loads_before_guard (backend : StatsBackend α)
    (store : SeriesStore α) (p : BoundParams)
    (hm : pyLower p.method = pyOfString ("arima") ∨
      pyLower p.method = pyOfString ("sarima")) :
    (∀ tse tsesd tsx tsxsd,
      store.load endDiffPath = Except.ok tse →
      store.load endSeasonalDiffPath = Except.ok tsesd →
      store.load exgDiffPath = Except.ok tsx →
      store.load exgSeasonalDiffPath = Except.ok tsxsd →
      (forecast_time_series backend store p).2 =
        loadEvents ++
          (pipelineAfterLoads backend p tse tsesd tsx tsxsd).2) ∧
    (∀ err, store.load endDiffPath = Except.error err →
      forecast_time_series backend store p =
        (Outcome.crash err, [Event.load endDiffPath]) ∧
      ∀ st d, (forecast_time_series backend store p).1 ≠
        Outcome.httpError st d) ∧
    (∀ tse err,
      store.load endDiffPath = Except.ok tse →
      store.load endSeasonalDiffPath = Except.error err →
      forecast_time_series backend store p =
        (Outcome.crash err,
         [Event.load endDiffPath, Event.load endSeasonalDiffPath]) ∧
      ∀ st d, (forecast_time_series backend store p).1 ≠
        Outcome.httpError st d) ∧
    (∀ tse tsesd err,
      store.load endDiffPath = Except.ok tse →
      store.load endSeasonalDiffPath = Except.ok tsesd →
      store.load exgDiffPath = Except.error err →
      forecast_time_series backend store p =
        (Outcome.crash err,
         [Event.load endDiffPath, Event.load endSeasonalDiffPath,
          Event.load exgDiffPath]) ∧
      ∀ st d, (forecast_time_series backend store p).1 ≠
        Outcome.httpError st d) ∧
    (∀ tse tsesd tsx err,
      store.load endDiffPath = Except.ok tse →
      store.load endSeasonalDiffPath = Except.ok tsesd →
      store.load exgDiffPath = Except.ok tsx →
      store.load exgSeasonalDiffPath = Except.error err →
      forecast_time_series backend store p =
        (Outcome.crash err,
         [Event.load endDiffPath, Event.load endSeasonalDiffPath,
          Event.load exgDiffPath, Event.load exgSeasonalDiffPath]) ∧
      ∀ st d, (forecast_time_series backend store p).1 ≠
        Outcome.httpError st d) := by
  refine ⟨?_, ?_, ?_, ?_, ?_⟩
  · intro tse tsesd tsx tsxsd h1 h2 h3 h4
    rw [forecast_time_series_eq_of_loads backend store p hm h1 h2 h3 h4]
  · intro err herr
    have heq : forecast_time_series backend store p =
        (Outcome.crash err, [Event.load endDiffPath]) := by
      rcases hm with hm2 | hm2 <;>
        simp [forecast_time_series, load_timeseries, hm2, herr]
    refine ⟨heq, fun st d hne => ?_⟩
    rw [heq] at hne
    exact Outcome.noConfusion hne
  · intro tse err h1 herr
    have heq : forecast_time_series backend store p =
        (Outcome.crash err,
         [Event.load endDiffPath, Event.load endSeasonalDiffPath]) := by
      rcases hm with hm2 | hm2 <;>
        simp [forecast_time_series, load_timeseries, hm2, h1, herr]
    refine ⟨heq, fun st d hne => ?_⟩
    rw [heq] at hne
    exact Outcome.noConfusion hne
  · intro tse tsesd err h1 h2 herr
    have heq : forecast_time_series backend store p =
        (Outcome.crash err,
         [Event.load endDiffPath, Event.load endSeasonalDiffPath,
          Event.load exgDiffPath]) := by
      rcases hm with hm2 | hm2 <;>
        simp [forecast_time_series, load_timeseries, hm2, h1, h2, herr]
    refine ⟨heq, fun st d hne => ?_⟩
    rw [heq] at hne
    exact Outcome.noConfusion hne
  · intro tse tsesd tsx err h1 h2 h3 herr
    have heq : forecast_time_series backend store p =
        (Outcome.crash err,
         [Event.load endDiffPath, Event.load endSeasonalDiffPath,
          Event.load exgDiffPath, Event.load exgSeasonalDiffPath]) := by
      rcases hm with hm2 | hm2 <;>
        simp [forecast_time_series, load_timeseries, hm2, h1, h2, h3, herr]
    refine ⟨heq, fun st d hne => ?_⟩
    rw [heq] at hne
    exact Outcome.noConfusion hne

/-- A store where only `end_diff.npy` is readable: the second load is the
first to raise. -/
def partialStore : SeriesStore Int :=
  { load := fun path =>
      if path = endDiffPath then Except.ok (testSeries path)
      else Except.error (("No such file or directory: ") ++ path) }

/-- Witness for C10: with only the first file readable, the request
crashes on the second load, after exactly two load events and before any
fit — and the crash is no `HTTPException`. -/
theorem claim_C10_witness :
    forecast_time_series okBackend partialStore pGood =
      (Outcome.crash
        (("No such file or directory: ") ++ endSeasonalDiffPath),
       [Event.load endDiffPath, Event.load endSeasonalDiffPath]) :=
  ((claim_C10_loads_before_guard okBackend partialStore pGood
    (by decide)).2.2.1 (testSeries endDiffPath)
    (("No such file or directory: ") ++ endSeasonalDiffPath)
    rfl rfl).1
